import Mathlib

/-!
Shallow embedding of the ROI bounds engine of `pyxalign`
(`src/pyxalign/transformations/helpers.py`) together with the rounding
utility `round_to_divisor`, and theorems settling the specification
claims about them.

Python integers are modelled as `Int`.  Python's `//` and
`int(np.floor(a / b))` for `b = 2 > 0` are floor division, which agrees
with Lean's `Int` division (`Int.ediv`) for positive divisors, so `/ 2`
on `Int` is a faithful translation.  The sequential mutation of
`x_start`, `x_end`, `c_x`, ... in the Python function is rendered in
SSA style: each assignment guarded by an `if` becomes a `let` binding
an `if` with the same guard.
-/

namespace Pyxalign

/-- The rectangular ROI options record
(`pyxalign/api/options/roi.py`, class `RectangularROIOptions`):
optional extents (`None` means "full array"), integer offsets of the ROI
center from the array center. -/
structure RectangularROIOptions where
  horizontal_range : Option Int := none
  vertical_range : Option Int := none
  horizontal_offset : Int := 0
  vertical_offset : Int := 0
  deriving DecidableEq, Repr

/-- The state of the four absolute bounds, the two corrected offsets and
the out-of-bounds flag at the end of the clamping sequence of
`force_roi_parameters_into_array_bounds`.  The Python function computes
exactly these seven values before returning. -/
structure BoundsResult where
  x_start : Int
  x_end : Int
  y_start : Int
  y_end : Int
  c_x : Int
  c_y : Int
  out_of_bounds : Bool
  deriving DecidableEq, Repr

/-- The bounds-computing body of `force_roi_parameters_into_array_bounds`
(helpers.py lines 63-94): resolve unset extents, form the step-5
candidate bounds from the array center and floor half-extents, then run
the four clamping branches in source order (x-low, x-high, y-low,
y-high), each branch overwriting the bound, the offset and the flag.
`array_2d_size = (height, width)`. -/
def force_roi_bounds (horizontal_range vertical_range : Option Int)
    (horizontal_offset vertical_offset : Int)
    (array_2d_size : Int × Int) : BoundsResult :=
  let H := array_2d_size.1
  let W := array_2d_size.2
  let w_x := horizontal_range.getD W
  let w_y := vertical_range.getD H
  let x0 := W / 2
  let y0 := H / 2
  let x_start0 := x0 + horizontal_offset - w_x / 2
  let x_end0 := x0 + horizontal_offset + w_x / 2
  let y_start0 := y0 + vertical_offset - w_y / 2
  let y_end0 := y0 + vertical_offset + w_y / 2
  -- if x_start < 0
  let x_start1 := if x_start0 < 0 then 0 else x_start0
  let c_x1 := if x_start0 < 0 then -(W / 2 - (x_end0 - x_start1) / 2)
              else horizontal_offset
  let ob1 := decide (x_start0 < 0)
  -- if x_end > array_2d_size[1]
  let x_end1 := if x_end0 > W then W else x_end0
  let c_x2 := if x_end0 > W then W / 2 - (x_end1 - x_start1) / 2 else c_x1
  let ob2 := ob1 || decide (x_end0 > W)
  -- if y_start < 0
  let y_start1 := if y_start0 < 0 then 0 else y_start0
  let c_y1 := if y_start0 < 0 then -(H / 2 - (y_end0 - y_start1) / 2)
              else vertical_offset
  let ob3 := ob2 || decide (y_start0 < 0)
  -- if y_end > array_2d_size[0]
  let y_end1 := if y_end0 > H then H else y_end0
  let c_y2 := if y_end0 > H then H / 2 - (y_end1 - y_start1) / 2 else c_y1
  let ob4 := ob3 || decide (y_end0 > H)
  ⟨x_start1, x_end1, y_start1, y_end1, c_x2, c_y2, ob4⟩

/-- `force_roi_parameters_into_array_bounds` (helpers.py lines 55-98):
returns `(new_w_x, new_w_y, c_x, c_y, out_of_bounds)` where the new
extents are the differences of the clamped bounds. -/
def force_roi_parameters_into_array_bounds
    (horizontal_range vertical_range : Option Int)
    (horizontal_offset vertical_offset : Int)
    (array_2d_size : Int × Int) : Int × Int × Int × Int × Bool :=
  let b := force_roi_bounds horizontal_range vertical_range
    horizontal_offset vertical_offset array_2d_size
  (b.x_end - b.x_start, b.y_end - b.y_start, b.c_x, b.c_y, b.out_of_bounds)

/-- `force_rectangular_roi_in_bounds` (helpers.py lines 101-118): unpack
the options record, clamp, and repack the corrected parameters into a
new `RectangularROIOptions` (the returned extents are concrete
integers, hence `some`). -/
def force_rectangular_roi_in_bounds (rect_roi_options : RectangularROIOptions)
    (array_2d_size : Int × Int) : RectangularROIOptions :=
  let t := force_roi_parameters_into_array_bounds
    rect_roi_options.horizontal_range rect_roi_options.vertical_range
    rect_roi_options.horizontal_offset rect_roi_options.vertical_offset
    array_2d_size
  { horizontal_range := some t.1
    vertical_range := some t.2.1
    horizontal_offset := t.2.2.1
    vertical_offset := t.2.2.2.1 }

/-- One axis of the clamping sequence (extent `w`, offset `c`, array
dimension `D`): returns `(new_w, c', flag)`.  Used to prove that the
two axes of `force_roi_parameters_into_array_bounds` do not interfere. -/
def clamp_axis (w c D : Int) : Int × Int × Bool :=
  let s0 := D / 2 + c - w / 2
  let e0 := D / 2 + c + w / 2
  let s1 := if s0 < 0 then 0 else s0
  let c1 := if s0 < 0 then -(D / 2 - (e0 - s1) / 2) else c
  let e1 := if e0 > D then D else e0
  let c2 := if e0 > D then D / 2 - (e1 - s1) / 2 else c1
  (e1 - s1, c2, decide (s0 < 0) || decide (e0 > D))

/-- Modelled from the spec: the `RoundType` enumeration.  Its defining
module `pyxalign/api/enums.py` is not among the sources; only the
members `CEIL`, `FLOOR`, `NEAREST` appear at the use site in
`round_to_divisor` and in the spec's `roundPolicy ∈ {CEIL, FLOOR,
NEAREST}`. -/
inductive RoundType where
  | CEIL
  | FLOOR
  | NEAREST
  deriving DecidableEq, Repr

/-- `np.round` restricted to exact rational scalars: round half to even
(numpy's rounding mode).  Non-half values round to the nearest
integer. -/
def np_round (q : ℚ) : Int :=
  if q - ⌊q⌋ = 1 / 2 then (if ⌊q⌋ % 2 = 0 then ⌊q⌋ else ⌊q⌋ + 1)
  else round q

/-- `round_to_divisor` (helpers.py lines 33-52), scalar case, on exact
rational input: select ceil/floor/round by `round_type`, apply to
`input / divisor`, and scale back by `divisor`.  `func x * divisor` is
already an integer, so Python's final `int(...)` conversion is the
identity here. -/
def round_to_divisor (input : ℚ) (round_type : RoundType)
    (divisor : Int) : Int :=
  let func : ℚ → Int :=
    match round_type with
    | .CEIL => fun x => ⌈x⌉
    | .FLOOR => fun x => ⌊x⌋
    | .NEAREST => np_round
  func (input / divisor) * divisor

-- sanity checks against the spec's concrete "centered fit" case
example : force_roi_parameters_into_array_bounds
    (some 50) (some 40) 0 0 (100, 200) = (50, 40, 0, 0, false) := by decide

example : force_roi_bounds (some 50) (some 40) 0 0 (100, 200) =
    ⟨75, 125, 30, 70, 0, 0, false⟩ := by decide

/-- The x-clamping and y-clamping of
`force_roi_parameters_into_array_bounds` factor into two independent
runs of `clamp_axis`, the out-of-bounds flag being the disjunction of
the per-axis flags. -/
theorem force_roi_parameters_axis_decomp (hr vr : Option Int)
    (ho vo H W : Int) :
    force_roi_parameters_into_array_bounds hr vr ho vo (H, W) =
      ((clamp_axis (hr.getD W) ho W).1, (clamp_axis (vr.getD H) vo H).1,
       (clamp_axis (hr.getD W) ho W).2.1, (clamp_axis (vr.getD H) vo H).2.1,
       ((clamp_axis (hr.getD W) ho W).2.2 ||
         (clamp_axis (vr.getD H) vo H).2.2)) := by
  simp only [force_roi_parameters_into_array_bounds, force_roi_bounds,
    clamp_axis]
  simp [Bool.or_assoc]

/-- Claim C6: for shape `(height 100, width 200)`, ROI extents `(300, 40)`,
offsets `(0, 0)`, the result is `x_start = 0`, `x_end = 200`, resolved
horizontal extent `200`, corrected horizontal offset `0`, and the
out-of-bounds flag set (both x-branches fire in sequence, the second
using the already-clamped `x_start`). -/
theorem left_edge_overflow_concrete :
    force_roi_bounds (some 300) (some 40) 0 0 (100, 200) =
      ⟨0, 200, 30, 70, 0, 0, true⟩ ∧
    force_roi_parameters_into_array_bounds (some 300) (some 40) 0 0
      (100, 200) = (200, 40, 0, 0, true) := by decide

/-- Claim C9: `round_to_divisor` on value `7` with divisor `5` returns `10`
under `CEIL`, `5` under `FLOOR`, and `5` under `NEAREST`
(`round(7/5) = 1`, times `5`). -/
theorem round_to_divisor_concrete_cases :
    round_to_divisor 7 RoundType.CEIL 5 = 10 ∧
    round_to_divisor 7 RoundType.FLOOR 5 = 5 ∧
    round_to_divisor 7 RoundType.NEAREST 5 = 5 := by
  have hc : (⌈(7:ℚ)/5⌉ : Int) = 2 := by
    rw [Int.ceil_eq_iff]
    norm_num
  have hf : (⌊(7:ℚ)/5⌋ : Int) = 1 := by norm_num
  have hn : np_round ((7:ℚ)/5) = 1 := by norm_num [np_round, round_eq]
  refine ⟨?_, ?_, ?_⟩ <;> simp [round_to_divisor, hc, hf, hn]

/-- Claim C10: the horizontal outputs (`new_w_x`, `c_x`) of
`force_roi_parameters_into_array_bounds` depend only on the horizontal
extent, the horizontal offset and the array width; symmetrically, the
vertical outputs (`new_w_y`, `c_y`) depend only on the vertical extent,
the vertical offset and the array height. -/
theorem axis_noninterference (hr hr' vr vr' : Option Int)
    (ho ho' vo vo' H H' W W' : Int) :
    ((force_roi_parameters_into_array_bounds hr vr ho vo (H, W)).1 =
       (force_roi_parameters_into_array_bounds hr vr' ho vo' (H', W)).1 ∧
     (force_roi_parameters_into_array_bounds hr vr ho vo (H, W)).2.2.1 =
       (force_roi_parameters_into_array_bounds hr vr' ho vo'
         (H', W)).2.2.1) ∧
    ((force_roi_parameters_into_array_bounds hr vr ho vo (H, W)).2.1 =
       (force_roi_parameters_into_array_bounds hr' vr ho' vo (H, W')).2.1 ∧
     (force_roi_parameters_into_array_bounds hr vr ho vo (H, W)).2.2.2.1 =
       (force_roi_parameters_into_array_bounds hr' vr ho' vo
         (H, W')).2.2.2.1) := by
  simp [force_roi_parameters_axis_decomp]

/-- Claim C1 counterexample: for shape `(10, 10)` and an ROI of extent `4`
whose center offset `100` places it fully to the right of the array,
the clamped bounds have `x_start = 103` and `x_end = 10`, so
`x_start < x_end` fails: clamping does not yield a valid in-bounds
rectangle for an ROI fully outside the array. -/
theorem in_bounds_invariant_counterexample :
    (force_roi_bounds (some 4) (some 4) 100 0 (10, 10)).x_start = 103 ∧
    (force_roi_bounds (some 4) (some 4) 100 0 (10, 10)).x_end = 10 ∧
    ¬((force_roi_bounds (some 4) (some 4) 100 0 (10, 10)).x_start <
      (force_roi_bounds (some 4) (some 4) 100 0 (10, 10)).x_end) := by
  decide

/-- Claim C2 counterexample: shape `(10, 10)`, extent `8`, horizontal offset
`-2`: the candidate bounds are `x_start = -1 < 0` and `x_end = 7 ≤ 10`,
so only the low x-edge branch fires, yet the returned horizontal offset
is `-2 = ⌊x_end/2⌋ - ⌊width/2⌋`, not `-⌊x_end/2⌋ = -3` as the claim
states. -/
theorem low_edge_offset_counterexample :
    ((10:Int) / 2 + -2 - 8 / 2 < 0) ∧
    ((10:Int) / 2 + -2 + 8 / 2 ≤ 10) ∧
    (force_roi_parameters_into_array_bounds (some 8) (some 8) (-2) 0
      (10, 10)).2.2.1 = -2 ∧
    ((-2 : Int) ≠ -(((10:Int) / 2 + -2 + 8 / 2) / 2)) := by decide

/-- Claim C3 counterexample: shape `(100, 100)`, ROI extents `(5, 4)`,
offsets `(0, 0)`: the candidate bounds `x: [48, 52]`, `y: [48, 52]` are
in bounds, yet the corrected ROI has horizontal extent `4 ≠ 5` — the
odd extent shrinks, so an in-bounds ROI is not returned unchanged. -/
theorem clamp_idempotent_counterexample :
    ((0:Int) ≤ 100 / 2 + 0 - 5 / 2) ∧
    ((100:Int) / 2 + 0 + 5 / 2 ≤ 100) ∧
    ((0:Int) ≤ 100 / 2 + 0 - 4 / 2) ∧
    ((100:Int) / 2 + 0 + 4 / 2 ≤ 100) ∧
    force_rectangular_roi_in_bounds ⟨some 5, some 4, 0, 0⟩ (100, 100) ≠
      ⟨some 5, some 4, 0, 0⟩ := by decide

/-- Claim C4 counterexample: shape `(10, 10)`, ROI extents `(8, 8)`, offsets
`(-2, 0)`: one clamp yields horizontal extent `7`, a second clamp of
that result yields `6`, so clamping twice differs from clamping once. -/
theorem double_clamp_counterexample :
    force_rectangular_roi_in_bounds
        (force_rectangular_roi_in_bounds ⟨some 8, some 8, -2, 0⟩ (10, 10))
        (10, 10) ≠
      force_rectangular_roi_in_bounds ⟨some 8, some 8, -2, 0⟩ (10, 10) := by
  decide

/-- Claim C5 counterexample: for the positive shape `(5, 5)`, an ROI with
both extents unset and offsets `(0, 0)` resolves to extents `(4, 4)`,
not to the full array `(5, 5)`: odd dimensions lose a pixel. -/
theorem unset_extent_counterexample :
    force_roi_parameters_into_array_bounds none none 0 0 (5, 5) =
      (4, 4, 0, 0, false) ∧ (4 : Int) ≠ 5 := by decide

/-- Claim C7 counterexample: shape `(100, 100)`, ROI extents `(5, 4)`,
offsets `(0, 0)`: the ROI is in bounds and its odd horizontal extent is
`5`, yet the resolved extent `x_end - x_start` is `4`, not the
requested `5`. -/
theorem odd_extent_counterexample :
    (force_roi_parameters_into_array_bounds (some 5) (some 4) 0 0
      (100, 100)).1 = 4 ∧ (4 : Int) ≠ 5 := by decide

/-- Claim C8 counterexample: a call with explicitly negative extents `(-4,
-4)` on shape `(10, 10)` does not fail: it returns the full result
`(-4, -4, 0, 0, false)`; a call with non-positive dimensions `(0, 0)`
also returns normally.  No invalid-argument error exists in the
operation. -/
theorem no_error_on_malformed_counterexample :
    force_roi_parameters_into_array_bounds (some (-4)) (some (-4)) 0 0
      (10, 10) = (-4, -4, 0, 0, false) ∧
    force_roi_parameters_into_array_bounds (some 4) (some 4) 0 0
      (0, 0) = (0, 0, 0, 0, true) := by decide

/-- When neither edge of an axis violates the array bounds, `clamp_axis`
returns the resolved extent `2 * (w / 2)` (the difference of the
candidate bounds), the offset unchanged, and no flag. -/
theorem clamp_axis_no_clamp (w c D : Int)
    (h1 : 0 ≤ D / 2 + c - w / 2) (h2 : D / 2 + c + w / 2 ≤ D) :
    clamp_axis w c D = (2 * (w / 2), c, false) := by
  have hs : ¬(D / 2 + c - w / 2 < 0) := by omega
  have he : ¬(D / 2 + c + w / 2 > D) := by omega
  simp only [clamp_axis, if_neg hs, if_neg he, decide_eq_false hs,
    decide_eq_false he, Bool.or_false, Prod.mk.injEq, and_true, true_and]
  omega

set_option maxHeartbeats 1000000 in
/-- When the extent produced by one run of `clamp_axis` is even, a
second run on its output reproduces the output exactly and raises no
flag. -/
theorem clamp_axis_even_fixed (w c D : Int)
    (he : (clamp_axis w c D).1 % 2 = 0) :
    clamp_axis (clamp_axis w c D).1 (clamp_axis w c D).2.1 D =
      ((clamp_axis w c D).1, (clamp_axis w c D).2.1, false) := by
  simp only [clamp_axis] at he ⊢
  split_ifs at he ⊢ <;>
    simp only [Prod.mk.injEq, Bool.or_eq_false_iff, decide_eq_false_iff_not,
      and_true, true_and] <;>
    omega

/-- Claim C1 (amended): the clamped bounds satisfy
`0 ≤ x_start < x_end ≤ width` and `0 ≤ y_start < y_end ≤ height`
provided each resolved extent is at least `2` and the step-5 candidate
window meets the array on each axis (`0 < x_end`, `x_start < width`,
and likewise for y).  As `in_bounds_invariant_counterexample` shows, an
ROI placed fully outside the array violates the invariant, so the
unconditional claim fails. -/
theorem clamped_bounds_valid_of_overlap (hr vr : Option Int)
    (ho vo H W : Int) (hW : 0 < W) (hH : 0 < H)
    (hx1 : 0 < W / 2 + ho + hr.getD W / 2)
    (hx2 : W / 2 + ho - hr.getD W / 2 < W)
    (hwx : 2 ≤ hr.getD W)
    (hy1 : 0 < H / 2 + vo + vr.getD H / 2)
    (hy2 : H / 2 + vo - vr.getD H / 2 < H)
    (hwy : 2 ≤ vr.getD H) :
    (0 ≤ (force_roi_bounds hr vr ho vo (H, W)).x_start ∧
     (force_roi_bounds hr vr ho vo (H, W)).x_start <
       (force_roi_bounds hr vr ho vo (H, W)).x_end ∧
     (force_roi_bounds hr vr ho vo (H, W)).x_end ≤ W) ∧
    (0 ≤ (force_roi_bounds hr vr ho vo (H, W)).y_start ∧
     (force_roi_bounds hr vr ho vo (H, W)).y_start <
       (force_roi_bounds hr vr ho vo (H, W)).y_end ∧
     (force_roi_bounds hr vr ho vo (H, W)).y_end ≤ H) := by
  simp only [force_roi_bounds]
  split_ifs <;> omega

/-- Witness for `clamped_bounds_valid_of_overlap`: shape `(100, 200)`,
ROI extents `(50, 40)`, offsets `(0, 0)`. -/
theorem clamped_bounds_valid_of_overlap_witness :
    (0 ≤ (force_roi_bounds (some 50) (some 40) 0 0 (100, 200)).x_start ∧
     (force_roi_bounds (some 50) (some 40) 0 0 (100, 200)).x_start <
       (force_roi_bounds (some 50) (some 40) 0 0 (100, 200)).x_end ∧
     (force_roi_bounds (some 50) (some 40) 0 0 (100, 200)).x_end ≤ 200) ∧
    (0 ≤ (force_roi_bounds (some 50) (some 40) 0 0 (100, 200)).y_start ∧
     (force_roi_bounds (some 50) (some 40) 0 0 (100, 200)).y_start <
       (force_roi_bounds (some 50) (some 40) 0 0 (100, 200)).y_end ∧
     (force_roi_bounds (some 50) (some 40) 0 0 (100, 200)).y_end ≤ 100) :=
  clamped_bounds_valid_of_overlap (some 50) (some 40) 0 0 100 200
    (by decide) (by decide) (by decide) (by decide) (by decide)
    (by decide) (by decide) (by decide)

/-- Claim C2 (amended): when the candidate bounds give `x_start < 0` and
`x_end ≤ width`, the operation sets `x_start = 0`, sets the out-of-bounds
flag, and the returned horizontal offset is
`⌊x_end / 2⌋ - ⌊width / 2⌋` — the new window center relative to the
array center — not `-⌊x_end / 2⌋` as the claim stated
(`low_edge_offset_counterexample`). -/
theorem low_edge_clamp_offset (hr vr : Option Int) (ho vo H W : Int)
    (h1 : W / 2 + ho - hr.getD W / 2 < 0)
    (h2 : W / 2 + ho + hr.getD W / 2 ≤ W) :
    (force_roi_bounds hr vr ho vo (H, W)).x_start = 0 ∧
    (force_roi_bounds hr vr ho vo (H, W)).c_x =
      (W / 2 + ho + hr.getD W / 2) / 2 - W / 2 ∧
    (force_roi_bounds hr vr ho vo (H, W)).out_of_bounds = true := by
  simp only [force_roi_bounds]
  split_ifs <;> simp_all <;> omega

/-- Witness for `low_edge_clamp_offset`: shape `(10, 10)`, extents
`(8, 8)`, offsets `(-2, 0)`: the offset comes back as
`⌊7/2⌋ - ⌊10/2⌋ = -2`. -/
theorem low_edge_clamp_offset_witness :
    (force_roi_bounds (some 8) (some 8) (-2) 0 (10, 10)).x_start = 0 ∧
    (force_roi_bounds (some 8) (some 8) (-2) 0 (10, 10)).c_x = -2 ∧
    (force_roi_bounds (some 8) (some 8) (-2) 0 (10, 10)).out_of_bounds =
      true := by
  simpa using low_edge_clamp_offset (some 8) (some 8) (-2) 0 10 10
    (by decide) (by decide)

/-- Claim C3 (amended): an ROI whose extents are explicitly set to even
values and whose candidate bounds already lie within the array is
returned unchanged by `force_rectangular_roi_in_bounds`, with the
out-of-bounds flag false.  For an odd extent the resolved extent
`2⌊w/2⌋ = w - 1` differs from the input, so the unrestricted claim
fails (`clamp_idempotent_counterexample`); an unset (`None`) extent
likewise comes back changed, as a concrete integer. -/
theorem clamp_identity_on_even_in_bounds (w h c d H W : Int)
    (hwe : w % 2 = 0) (hhe : h % 2 = 0)
    (hx1 : 0 ≤ W / 2 + c - w / 2) (hx2 : W / 2 + c + w / 2 ≤ W)
    (hy1 : 0 ≤ H / 2 + d - h / 2) (hy2 : H / 2 + d + h / 2 ≤ H) :
    force_rectangular_roi_in_bounds ⟨some w, some h, c, d⟩ (H, W) =
      ⟨some w, some h, c, d⟩ ∧
    (force_roi_parameters_into_array_bounds (some w) (some h) c d
      (H, W)).2.2.2.2 = false := by
  have hA := clamp_axis_no_clamp w c W hx1 hx2
  have hB := clamp_axis_no_clamp h d H hy1 hy2
  constructor
  · simp only [force_rectangular_roi_in_bounds,
      force_roi_parameters_axis_decomp, Option.getD_some, hA, hB]
    simp only [RectangularROIOptions.mk.injEq, Option.some.injEq,
      and_true, true_and]
    omega
  · rw [force_roi_parameters_axis_decomp]
    simp [hA, hB]

/-- Witness for `clamp_identity_on_even_in_bounds`: shape `(10, 10)`,
extents `(4, 4)`, offsets `(0, 0)`. -/
theorem clamp_identity_on_even_in_bounds_witness :
    force_rectangular_roi_in_bounds ⟨some 4, some 4, 0, 0⟩ (10, 10) =
      ⟨some 4, some 4, 0, 0⟩ ∧
    (force_roi_parameters_into_array_bounds (some 4) (some 4) 0 0
      (10, 10)).2.2.2.2 = false :=
  clamp_identity_on_even_in_bounds 4 4 0 0 10 10 (by decide) (by decide)
    (by decide) (by decide) (by decide) (by decide)

/-- Claim C4 (amended): clamping twice equals clamping once whenever the
extents resolved by the first clamp are both even.  When the first
clamp produces an odd extent (possible when an edge is clamped, e.g.
`double_clamp_counterexample`), the second clamp shrinks it by one more
pixel, so the unconditional claim fails. -/
theorem double_clamp_stable_of_even (hr vr : Option Int) (ho vo H W : Int)
    (hx : (force_roi_parameters_into_array_bounds hr vr ho vo
      (H, W)).1 % 2 = 0)
    (hy : (force_roi_parameters_into_array_bounds hr vr ho vo
      (H, W)).2.1 % 2 = 0) :
    force_rectangular_roi_in_bounds
        (force_rectangular_roi_in_bounds ⟨hr, vr, ho, vo⟩ (H, W)) (H, W) =
      force_rectangular_roi_in_bounds ⟨hr, vr, ho, vo⟩ (H, W) := by
  rw [force_roi_parameters_axis_decomp] at hx hy
  simp only at hx hy
  have hA := clamp_axis_even_fixed (hr.getD W) ho W hx
  have hB := clamp_axis_even_fixed (vr.getD H) vo H hy
  simp only [force_rectangular_roi_in_bounds,
    force_roi_parameters_axis_decomp, Option.getD_some, hA, hB]

/-- Witness for `double_clamp_stable_of_even`: shape `(10, 10)`, extents
`(8, 8)`, offsets `(-3, 0)`: the first clamp resolves the extents to
`(6, 8)`, both even. -/
theorem double_clamp_stable_of_even_witness :
    force_rectangular_roi_in_bounds
        (force_rectangular_roi_in_bounds ⟨some 8, some 8, -3, 0⟩ (10, 10))
        (10, 10) =
      force_rectangular_roi_in_bounds ⟨some 8, some 8, -3, 0⟩ (10, 10) :=
  double_clamp_stable_of_even (some 8) (some 8) (-3) 0 10 10
    (by decide) (by decide)

/-- Claim C5 (amended): an ROI with both extents unset and offsets
`(0, 0)` against a positive shape `(H, W)` resolves to extents
`(2⌊W/2⌋, 2⌊H/2⌋)` with offsets `(0, 0)` and no flag; this is the full
array `(W, H)` exactly when the dimensions are even, while odd
dimensions lose one pixel (`unset_extent_counterexample`). -/
theorem unset_extent_resolution (H W : Int) (hH : 0 < H) (hW : 0 < W) :
    force_roi_parameters_into_array_bounds none none 0 0 (H, W) =
      (2 * (W / 2), 2 * (H / 2), 0, 0, false) := by
  have hA := clamp_axis_no_clamp W 0 W (by omega) (by omega)
  have hB := clamp_axis_no_clamp H 0 H (by omega) (by omega)
  rw [force_roi_parameters_axis_decomp]
  simp [hA, hB]

/-- Witness for `unset_extent_resolution`: shape `(6, 6)` resolves to
the full array. -/
theorem unset_extent_resolution_witness :
    force_roi_parameters_into_array_bounds none none 0 0 (6, 6) =
      (6, 6, 0, 0, false) := by
  simpa using unset_extent_resolution 6 6 (by decide) (by decide)

/-- Claim C7 (amended): for an in-bounds ROI with an odd extent `w`, the
candidate window `[x_start, x_end]` is symmetric about the ROI center
`⌊W/2⌋ + offset` and spans `w` pixels counted inclusively
(`x_end - x_start = w - 1`); the resolved extent `x_end - x_start`
equals `w - 1`, not `w` as the claim's parenthetical stated
(`odd_extent_counterexample`). -/
theorem odd_extent_window_span (hr vr : Option Int) (ho vo H W : Int)
    (hodd : hr.getD W % 2 = 1)
    (h1 : 0 ≤ W / 2 + ho - hr.getD W / 2)
    (h2 : W / 2 + ho + hr.getD W / 2 ≤ W) :
    (force_roi_bounds hr vr ho vo (H, W)).x_end -
        (force_roi_bounds hr vr ho vo (H, W)).x_start = hr.getD W - 1 ∧
    (force_roi_bounds hr vr ho vo (H, W)).x_end - (W / 2 + ho) =
      (W / 2 + ho) - (force_roi_bounds hr vr ho vo (H, W)).x_start := by
  simp only [force_roi_bounds]
  split_ifs <;> omega

/-- Witness for `odd_extent_window_span`: shape `(100, 100)`, extents
`(5, 4)`, offsets `(0, 0)`: bounds `[48, 52]`, an inclusive span of 5
pixels, resolved extent `4`. -/
theorem odd_extent_window_span_witness :
    (force_roi_bounds (some 5) (some 4) 0 0 (100, 100)).x_end -
        (force_roi_bounds (some 5) (some 4) 0 0 (100, 100)).x_start = 4 ∧
    (force_roi_bounds (some 5) (some 4) 0 0 (100, 100)).x_end - 50 =
      50 - (force_roi_bounds (some 5) (some 4) 0 0 (100, 100)).x_start := by
  simpa using odd_extent_window_span (some 5) (some 4) 0 0 100 100
    (by decide) (by decide) (by decide)

/-- Claim C8 (amended): the operation performs no input validation and
has no error path at all: negative extents and non-positive array
dimensions flow through the same clamping arithmetic and return a
normal (possibly meaningless) result
(`no_error_on_malformed_counterexample`).  In particular an explicitly
negative extent whose degenerate candidate window needs no clamping is
passed through as `2⌊w/2⌋` with the flag still false. -/
theorem negative_extent_passthrough (w h c d H W : Int)
    (hx1 : 0 ≤ W / 2 + c - w / 2) (hx2 : W / 2 + c + w / 2 ≤ W)
    (hy1 : 0 ≤ H / 2 + d - h / 2) (hy2 : H / 2 + d + h / 2 ≤ H) :
    force_roi_parameters_into_array_bounds (some w) (some h) c d (H, W) =
      (2 * (w / 2), 2 * (h / 2), c, d, false) := by
  rw [force_roi_parameters_axis_decomp]
  simp [clamp_axis_no_clamp w c W hx1 hx2, clamp_axis_no_clamp h d H hy1 hy2]

/-- Witness for `negative_extent_passthrough`: the malformed extents
`(-4, -4)` on shape `(10, 10)` are returned untouched, flag false. -/
theorem negative_extent_passthrough_witness :
    force_roi_parameters_into_array_bounds (some (-4)) (some (-4)) 0 0
      (10, 10) = (-4, -4, 0, 0, false) := by
  simpa using negative_extent_passthrough (-4) (-4) 0 0 10 10
    (by decide) (by decide) (by decide) (by decide)

end Pyxalign
